import Mathlib

/-!
# Verification of the aEi.ai Python client request layer

This file gives a shallow embedding of `src/api/aei_api.py`, the request
construction layer of the aEi.ai client: URL composition, query-string
building, header conventions (Bearer / Basic), body encodings, and the
status-interpretation helper.  Python `str` values are modelled as
`List Char` (a Python string is a sequence of unicode characters), Python
`bytes` as `List Nat` with every element below 256.  Each operation of the
facade is modelled as a pure function producing the `Request` it would
hand to the HTTP transport.
-/

/-- A Python string, modelled character by character. -/
abbrev Str := List Char

/-- Convert a Lean string literal to the `Str` model. -/
def str (s : String) : Str := s.toList

/-- A header value: the source passes strings everywhere except `register`,
whose `agreed` header carries a Python `bool`. -/
inductive HVal where
  | s (v : Str)
  | b (v : Bool)
deriving DecidableEq

/-- The request body, one constructor per encoding the source uses:
absent (`data=None` / no `data` argument), a raw string (`data=<str>`),
URL-form-encoded fields (`data=<dict or list of pairs>`), and a
JSON-serialized object (`data=json.dumps(<dict>)`). -/
inductive Body where
  | none
  | raw (s : Str)
  | form (fields : List (Str × Str))
  | json (obj : List (Str × Str))
deriving DecidableEq

/-- The outbound HTTP request an operation constructs. -/
structure Request where
  method : Str
  url : Str
  headers : List (Str × HVal)
  body : Body
deriving DecidableEq

/-- `AEI_AI_URL = "https://aei.ai"`. -/
def AEI_AI_URL : Str := str "https://aei.ai"

/-- `API_VERSION = "v1"`. -/
def API_VERSION : Str := str "v1"

/-- `API_URL = AEI_AI_URL + "/api/" + API_VERSION`. -/
def API_URL : Str := AEI_AI_URL ++ str "/api/" ++ API_VERSION

/-- `auth_headers(access_token)` returns
`{"Authorization": "Bearer " + access_token}`. -/
def auth_headers (access_token : Str) : List (Str × HVal) :=
  [(str "Authorization", HVal.s (str "Bearer " ++ access_token))]

/-- `params_2_string(params)`: empty string for `None` or an empty dict;
otherwise `"?"` followed by `k + "=" + v + "&"` for each entry, with the
final `&` removed (`out[:-1]`). -/
def params_2_string (params : Option (List (Str × Str))) : Str :=
  match params with
  | Option.none => []
  | some ps =>
    if ps.length = 0 then []
    else
      let out := ps.foldl (fun acc kv => acc ++ kv.1 ++ str "=" ++ kv.2 ++ str "&") (str "?")
      out.dropLast

/-- A Python value as found in a decoded JSON status object. -/
inductive PyVal where
  | int (n : Int)
  | str (s : Str)
  | none
deriving DecidableEq

/-- `is_success(status)`: reads `status["code"]`; when it differs from
`200`, prints `status["error"]` and `status["help"]` and returns `False`,
otherwise returns `True`.  A dict lookup on an absent key raises `KeyError`,
modelled by `Except.error <key>`; a normal return carries the printed
diagnostics alongside the boolean. -/
def is_success (status : List (Str × PyVal)) : Except Str (List PyVal × Bool) :=
  match status.lookup (str "code") with
  | Option.none => Except.error (str "code")
  | some c =>
    if c ≠ PyVal.int 200 then
      match status.lookup (str "error") with
      | Option.none => Except.error (str "error")
      | some e =>
        match status.lookup (str "help") with
        | Option.none => Except.error (str "help")
        | some h => Except.ok ([e, h], false)
    else Except.ok ([], true)

/-- ASCII encoding of a Python string whose characters are all below
codepoint 128: each character becomes one byte (`str.encode("ascii")`). -/
def toBytes (s : Str) : List Nat := s.map Char.toNat

/-- The inverse of `toBytes`: decode a byte list back to characters
(`bytes.decode("ascii")`). -/
def bytes_to_chars (l : List Nat) : Str := l.map Char.ofNat

/-- The RFC 4648 base64 alphabet, as used by Python's `base64.b64encode`. -/
def b64chars : Str :=
  str "ABCDEFGHIJKLMNOPQRSTUVWXYZabcdefghijklmnopqrstuvwxyz0123456789+/"

/-- The base64 character of a sextet. -/
def b64char (i : Nat) : Char := b64chars.getD i 'A'

/-- Position of a character in the base64 alphabet. -/
def b64index (c : Char) : Option Nat := b64chars.findIdx? (fun x => x == c)

/-- `base64.b64encode`: bytes are consumed three at a time into four
sextets; a final group of one or two bytes is padded with `=`. -/
def b64encode : List Nat → Str
  | [] => []
  | [a] => [b64char (a / 4), b64char (a % 4 * 16), '=', '=']
  | [a, b] => [b64char (a / 4), b64char (a % 4 * 16 + b / 16), b64char (b % 16 * 4), '=']
  | a :: b :: c :: rest =>
    b64char (a / 4) :: b64char (a % 4 * 16 + b / 16) ::
      b64char (b % 16 * 4 + c / 64) :: b64char (c % 64) :: b64encode rest

/-- Base64 decoding: four characters at a time, honouring `=` padding in
the final group; `Option.none` on malformed input. -/
def b64decode : Str → Option (List Nat)
  | [] => some []
  | c1 :: c2 :: c3 :: c4 :: rest =>
    match b64index c1, b64index c2 with
    | some i1, some i2 =>
      if c3 = '=' then
        if c4 = '=' ∧ rest = [] then some [i1 * 4 + i2 / 16] else Option.none
      else
        match b64index c3 with
        | some i3 =>
          if c4 = '=' then
            if rest = [] then some [i1 * 4 + i2 / 16, i2 % 16 * 16 + i3 / 4] else Option.none
          else
            match b64index c4 with
            | some i4 =>
              (b64decode rest).map
                (fun t => (i1 * 4 + i2 / 16) :: (i2 % 16 * 16 + i3 / 4) :: (i3 % 4 * 64 + i4) :: t)
            | Option.none => Option.none
        | Option.none => Option.none
    | _, _ => Option.none
  | _ => Option.none

/-- Split a string at its first `:`; `str.split(":", 1)` when a colon is
present. -/
def split_first_colon : Str → Str × Str
  | [] => ([], [])
  | ch :: rest =>
    if ch = ':' then ([], rest)
    else
      let p := split_first_colon rest
      (ch :: p.1, p.2)

/-- `register(username, email, password, agreed)`: `POST` to
`AEI_AI_URL + "/register"` with the credentials sent as request headers
and no body. -/
def register (username email password : Str) (agreed : Bool) : Request :=
  { method := str "POST"
  , url := AEI_AI_URL ++ str "/register"
  , headers := [(str "username", HVal.s username), (str "email", HVal.s email),
                (str "password", HVal.s password), (str "agreed", HVal.b agreed)]
  , body := Body.none }

/-- `login(username, password)`: `POST` to `AEI_AI_URL + "/oauth/token"`
with an `Authorization: Basic <base64(username + ":" + password)>` header,
a form-encoded `grant_type=client_credentials` body, and the form content
type. -/
def login (username password : Str) : Request :=
  { method := str "POST"
  , url := AEI_AI_URL ++ str "/oauth/token"
  , headers := [(str "Authorization",
                  HVal.s (str "Basic " ++ b64encode (toBytes (username ++ ':' :: password)))),
                (str "Content-Type", HVal.s (str "application/x-www-form-urlencoded"))]
  , body := Body.form [(str "grant_type", str "client_credentials")] }

/-- `create_new_user(access_token, attributes)`: `POST` to
`API_URL + "/users"` with Bearer auth; body is `json.dumps(attributes)`
when `attributes` is truthy (a non-empty dict), absent otherwise. -/
def create_new_user (access_token : Str) (attributes : Option (List (Str × Str))) : Request :=
  { method := str "POST"
  , url := API_URL ++ str "/users"
  , headers := auth_headers access_token
  , body := match attributes with
            | Option.none => Body.none
            | some attrs => if attrs.isEmpty then Body.none else Body.json attrs }

/-- `create_new_interaction(user_ids, access_token)`: `POST` to
`API_URL + "/interactions"` with Bearer auth; body is the list of
`("user_id", user_id)` form fields, one per member. -/
def create_new_interaction (user_ids : List Str) (access_token : Str) : Request :=
  { method := str "POST"
  , url := API_URL ++ str "/interactions"
  , headers := auth_headers access_token
  , body := Body.form (user_ids.map (fun user_id => (str "user_id", user_id))) }

/-- `get_interaction(interaction_id, access_token)`. -/
def get_interaction (interaction_id access_token : Str) : Request :=
  { method := str "GET"
  , url := API_URL ++ str "/interactions/" ++ interaction_id
  , headers := auth_headers access_token
  , body := Body.none }

/-- `get_interaction_list(access_token)`. -/
def get_interaction_list (access_token : Str) : Request :=
  { method := str "GET"
  , url := API_URL ++ str "/interactions"
  , headers := auth_headers access_token
  , body := Body.none }

/-- `add_users_to_interaction(interaction_id, user_ids, access_token)`:
`PUT` to `API_URL + "/interactions/" + interaction_id + "/users"` with
Bearer auth; body is the list of `("user_id", user_id)` form fields. -/
def add_users_to_interaction (interaction_id : Str) (user_ids : List Str)
    (access_token : Str) : Request :=
  { method := str "PUT"
  , url := API_URL ++ str "/interactions/" ++ interaction_id ++ str "/users"
  , headers := auth_headers access_token
  , body := Body.form (user_ids.map (fun user_id => (str "user_id", user_id))) }

/-- `new_text_input(user_id, interaction_id, text, access_token)`: `POST`
to `API_URL + "/inputs/text"` plus the query string for
`{"user_id": user_id, "interaction_id": interaction_id}`, Bearer auth,
raw text body. -/
def new_text_input (user_id interaction_id text access_token : Str) : Request :=
  { method := str "POST"
  , url := API_URL ++ str "/inputs/text" ++
      params_2_string (some [(str "user_id", user_id), (str "interaction_id", interaction_id)])
  , headers := auth_headers access_token
  , body := Body.raw text }

/-- `new_interaction_list_input(json_string, access_token)`: `POST` to
`API_URL + "/inputs/interaction-list"` with Bearer auth and the raw JSON
string as body; no query parameters. -/
def new_interaction_list_input (json_string access_token : Str) : Request :=
  { method := str "POST"
  , url := API_URL ++ str "/inputs/interaction-list"
  , headers := auth_headers access_token
  , body := Body.raw json_string }

/-- `get_user(user_id, access_token)`. -/
def get_user (user_id access_token : Str) : Request :=
  { method := str "GET"
  , url := API_URL ++ str "/users/" ++ user_id
  , headers := auth_headers access_token
  , body := Body.none }

/-- `get_user_emotion(user_id, access_token)`. -/
def get_user_emotion (user_id access_token : Str) : Request :=
  { method := str "GET"
  , url := API_URL ++ str "/users/" ++ user_id ++ str "/emotion"
  , headers := auth_headers access_token
  , body := Body.none }

/-- `get_user_mood(user_id, access_token)`. -/
def get_user_mood (user_id access_token : Str) : Request :=
  { method := str "GET"
  , url := API_URL ++ str "/users/" ++ user_id ++ str "/mood"
  , headers := auth_headers access_token
  , body := Body.none }

/-- `get_user_personality(user_id, access_token)`. -/
def get_user_personality (user_id access_token : Str) : Request :=
  { method := str "GET"
  , url := API_URL ++ str "/users/" ++ user_id ++ str "/personality"
  , headers := auth_headers access_token
  , body := Body.none }

/-- `get_user_satisfaction(user_id, access_token)`. -/
def get_user_satisfaction (user_id access_token : Str) : Request :=
  { method := str "GET"
  , url := API_URL ++ str "/users/" ++ user_id ++ str "/satisfaction"
  , headers := auth_headers access_token
  , body := Body.none }

/-- `get_user_social_perception(user_id, access_token)`. -/
def get_user_social_perception (user_id access_token : Str) : Request :=
  { method := str "GET"
  , url := API_URL ++ str "/users/" ++ user_id ++ str "/social-perception"
  , headers := auth_headers access_token
  , body := Body.none }

/-- `get_user_list(access_token)`. -/
def get_user_list (access_token : Str) : Request :=
  { method := str "GET"
  , url := API_URL ++ str "/users/"
  , headers := auth_headers access_token
  , body := Body.none }

/-- `get_used_free_queries(access_token)`. -/
def get_used_free_queries (access_token : Str) : Request :=
  { method := str "GET"
  , url := API_URL ++ str "/metrics/queries/used"
  , headers := auth_headers access_token
  , body := Body.none }

/-- `get_used_paid_queries(access_token)`. -/
def get_used_paid_queries (access_token : Str) : Request :=
  { method := str "GET"
  , url := API_URL ++ str "/metrics/queries"
  , headers := auth_headers access_token
  , body := Body.none }

/-- `get_payment_sources(access_token)`. -/
def get_payment_sources (access_token : Str) : Request :=
  { method := str "GET"
  , url := API_URL ++ str "/sources"
  , headers := auth_headers access_token
  , body := Body.none }

/-- `get_payment_source(source_id, access_token)`. -/
def get_payment_source (source_id access_token : Str) : Request :=
  { method := str "GET"
  , url := API_URL ++ str "/sources/" ++ source_id
  , headers := auth_headers access_token
  , body := Body.none }

/-- `add_payment_source(source_id, access_token)`: `POST` with no body. -/
def add_payment_source (source_id access_token : Str) : Request :=
  { method := str "POST"
  , url := API_URL ++ str "/sources/" ++ source_id
  , headers := auth_headers access_token
  , body := Body.none }

/-- `get_subscription(access_token)`. -/
def get_subscription (access_token : Str) : Request :=
  { method := str "GET"
  , url := API_URL ++ str "/subscriptions"
  , headers := auth_headers access_token
  , body := Body.none }

/-- `update_subscription(subscription_type, access_token)`: `PUT` with a
form-encoded `subscription_type` body. -/
def update_subscription (subscription_type access_token : Str) : Request :=
  { method := str "PUT"
  , url := API_URL ++ str "/subscriptions"
  , headers := auth_headers access_token
  , body := Body.form [(str "subscription_type", subscription_type)] }

/-- `delete_source(source_id, access_token)`. -/
def delete_source (source_id access_token : Str) : Request :=
  { method := str "DELETE"
  , url := API_URL ++ str "/sources/" ++ source_id
  , headers := auth_headers access_token
  , body := Body.none }

/-- `update_source(source_id, update_params, access_token)`: `PUT`; body
is `json.dumps(update_params)` when truthy, absent otherwise. -/
def update_source (source_id : Str) (update_params : Option (List (Str × Str)))
    (access_token : Str) : Request :=
  { method := str "PUT"
  , url := API_URL ++ str "/sources/" ++ source_id
  , headers := auth_headers access_token
  , body := match update_params with
            | Option.none => Body.none
            | some ps => if ps.isEmpty then Body.none else Body.json ps }

/-- `change_password(password, access_token)`: `PUT` to
`API_URL + "/clients/password"`; headers are the Bearer auth headers with
the new password added under the `password` key. -/
def change_password (password access_token : Str) : Request :=
  { method := str "PUT"
  , url := API_URL ++ str "/clients/password"
  , headers := auth_headers access_token ++ [(str "password", HVal.s password)]
  , body := Body.none }

/-- `reset_password(email)`: `POST` to `AEI_AI_URL + "/reset-password"`
with no headers and a form-encoded `email` body. -/
def reset_password (email : Str) : Request :=
  { method := str "POST"
  , url := AEI_AI_URL ++ str "/reset-password"
  , headers := []
  , body := Body.form [(str "email", email)] }

/-- `update_password(username, password_reset_token, new_password)`: `PUT`
to `AEI_AI_URL + "/update-password"` with the username, reset token and
new password sent as request headers and no body. -/
def update_password (username password_reset_token new_password : Str) : Request :=
  { method := str "PUT"
  , url := AEI_AI_URL ++ str "/update-password"
  , headers := [(str "username", HVal.s username), (str "token", HVal.s password_reset_token),
                (str "password", HVal.s new_password)]
  , body := Body.none }

/-- `params_2_string` at Python's dynamic level: a value slot may hold
`None` (modelled by `Option.none`), and the concatenation
`out + k + "=" + v + "&"` raises `TypeError` when `v` is `None`,
modelled by `Except.error ()`. -/
def params_2_string_dyn (params : Option (List (Str × Option Str))) : Except Unit Str :=
  match params with
  | Option.none => Except.ok []
  | some ps =>
    if ps.length = 0 then Except.ok []
    else
      (ps.foldlM (fun (acc : Str) (kv : Str × Option Str) =>
          match kv.2 with
          | some v => (Except.ok (acc ++ kv.1 ++ str "=" ++ v ++ str "&") : Except Unit Str)
          | Option.none => Except.error ()) (str "?")).map
        (fun (out : Str) => out.dropLast)

/-- `new_text_input` at the dynamic level, allowing `None` to be passed
for `interaction_id`: the query-string construction then raises
`TypeError` before any request is built. -/
def new_text_input_dyn (user_id : Str) (interaction_id : Option Str)
    (text access_token : Str) : Except Unit Request :=
  (params_2_string_dyn
      (some [(str "user_id", some user_id), (str "interaction_id", interaction_id)])).map
    (fun q =>
      { method := str "POST"
      , url := API_URL ++ str "/inputs/text" ++ q
      , headers := auth_headers access_token
      , body := Body.raw text })

/-- Spec-side statement of the query-string shape: the `key=value` pairs
joined by `&`, no trailing separator, values verbatim (no percent
encoding).  Written from the specification's words, to be compared with
`params_2_string`. -/
def spec_join_pairs : List (Str × Str) → Str
  | [] => []
  | [kv] => kv.1 ++ str "=" ++ kv.2
  | kv :: rest => kv.1 ++ str "=" ++ kv.2 ++ str "&" ++ spec_join_pairs rest

/-- A URL that starts with the versioned resource path
`https://aei.ai/api/v1`. -/
def versioned (u : Str) : Prop := ∃ rest, str "https://aei.ai/api/v1" ++ rest = u

/-- The accumulator pass of `params_2_string` produces the joined pairs
followed by one trailing `&`. -/
theorem params_foldl_join (ps : List (Str × Str)) (hne : ps ≠ []) : ∀ acc : Str,
    ps.foldl (fun acc kv => acc ++ kv.1 ++ str "=" ++ kv.2 ++ str "&") acc
      = acc ++ spec_join_pairs ps ++ str "&" := by
  induction ps with
  | nil => exact absurd rfl hne
  | cons kv rest ih =>
    intro acc
    cases rest with
    | nil => simp [spec_join_pairs, List.append_assoc]
    | cons kv2 rest2 =>
      rw [List.foldl_cons, ih (by simp)]
      simp [spec_join_pairs, List.append_assoc]

/-- C1: for every non-empty access-token string `t`, `auth_headers`
produces exactly one header, `Authorization`, whose value is the string
`"Bearer "` followed by `t`, character for character. -/
theorem auth_headers_bearer (t : Str) (hne : t ≠ []) :
    (auth_headers t).lookup (str "Authorization") = some (HVal.s (str "Bearer " ++ t))
    ∧ auth_headers t = [(str "Authorization", HVal.s (str "Bearer " ++ t))] :=
  ⟨rfl, rfl⟩

/-- Witness for C1 at the concrete token `"tok"`. -/
theorem auth_headers_bearer_witness :
    str "tok" ≠ [] ∧
    (auth_headers (str "tok")).lookup (str "Authorization")
      = some (HVal.s (str "Bearer " ++ str "tok")) :=
  ⟨by decide, (auth_headers_bearer (str "tok") (by decide)).1⟩

/-- C2: the query string for `{"user_id": "u1", "interaction_id": "i2"}`
is exactly `?user_id=u1&interaction_id=i2`; an absent or empty parameter
map yields the empty string; and for every non-empty parameter map the
result is `?` followed by the `key=value` pairs joined by `&`, with no
trailing `&` and the values taken verbatim (no percent-encoding). -/
theorem params_2_string_spec :
    params_2_string (some [(str "user_id", str "u1"), (str "interaction_id", str "i2")])
        = str "?user_id=u1&interaction_id=i2"
    ∧ params_2_string Option.none = []
    ∧ params_2_string (some []) = []
    ∧ ∀ ps : List (Str × Str), ps ≠ [] →
        params_2_string (some ps) = str "?" ++ spec_join_pairs ps := by
  refine ⟨by decide, rfl, rfl, ?_⟩
  intro ps hne
  simp only [params_2_string]
  rw [if_neg (by simpa using hne), params_foldl_join ps hne,
    show str "&" = ['&'] from rfl, List.dropLast_concat]

/-- Witness for C2's universally quantified part at a one-entry map. -/
theorem params_2_string_spec_witness :
    ([(str "a", str "b")] : List (Str × Str)) ≠ [] ∧
    params_2_string (some [(str "a", str "b")])
      = str "?" ++ spec_join_pairs [(str "a", str "b")] :=
  ⟨by decide, params_2_string_spec.2.2.2 [(str "a", str "b")] (by decide)⟩

/-- C3: `is_success` succeeds exactly on code 200: a status whose `code`
is 200 yields `true` with no diagnostics; on the concrete 404 status the
helper returns `false` and surfaces the `error` and `help` strings; and
in general any status whose `code` differs from 200 and carries `error`
and `help` values returns `false` with exactly those two diagnostics. -/
theorem is_success_spec :
    (∀ status : List (Str × PyVal), status.lookup (str "code") = some (PyVal.int 200) →
        is_success status = Except.ok ([], true))
    ∧ is_success [(str "code", PyVal.int 404), (str "error", PyVal.str (str "not found")),
          (str "help", PyVal.str (str "check id"))]
        = Except.ok ([PyVal.str (str "not found"), PyVal.str (str "check id")], false)
    ∧ ∀ (status : List (Str × PyVal)) (c e h : PyVal),
        status.lookup (str "code") = some c → c ≠ PyVal.int 200 →
        status.lookup (str "error") = some e → status.lookup (str "help") = some h →
        is_success status = Except.ok ([e, h], false) := by
  refine ⟨?_, rfl, ?_⟩
  · intro status hcode
    simp [is_success, hcode]
  · intro status c e h hcode hne herr hhelp
    simp [is_success, hcode, hne, herr, hhelp]

/-- Witness for C3's quantified parts at concrete statuses. -/
theorem is_success_spec_witness :
    ([(str "code", PyVal.int 200)] : List (Str × PyVal)).lookup (str "code")
        = some (PyVal.int 200)
    ∧ is_success [(str "code", PyVal.int 200)] = Except.ok ([], true) :=
  ⟨by decide, is_success_spec.1 [(str "code", PyVal.int 200)] (by decide)⟩

/-- C10: when the `code` value differs from 200, `is_success` reads the
`error` and `help` keys before returning: if either is absent the call
raises a `KeyError` (it never returns `false`), and any normal return is
`false` carrying exactly the two looked-up diagnostics — so returning
`false` guarantees both keys were present. -/
theorem is_success_diagnostics (status : List (Str × PyVal)) (c : PyVal)
    (hcode : status.lookup (str "code") = some c) (hne : c ≠ PyVal.int 200) :
    (status.lookup (str "error") = Option.none →
        is_success status = Except.error (str "error"))
    ∧ (∀ e, status.lookup (str "error") = some e →
        status.lookup (str "help") = Option.none →
        is_success status = Except.error (str "help"))
    ∧ ∀ out, is_success status = Except.ok out →
        ∃ e h, status.lookup (str "error") = some e ∧ status.lookup (str "help") = some h
          ∧ out = ([e, h], false) := by
  refine ⟨?_, ?_, ?_⟩
  · intro herr
    simp [is_success, hcode, hne, herr]
  · intro e herr hhelp
    simp [is_success, hcode, hne, herr, hhelp]
  · intro out hok
    simp only [is_success, hcode, if_pos hne] at hok
    cases herr : status.lookup (str "error") with
    | none => rw [herr] at hok; exact absurd hok (by simp)
    | some e =>
      rw [herr] at hok
      cases hhelp : status.lookup (str "help") with
      | none => rw [hhelp] at hok; exact absurd hok (by simp)
      | some h =>
        rw [hhelp] at hok
        exact ⟨e, h, rfl, rfl, by simpa using hok.symm⟩

/-- Witness for C10 at a status carrying a 404 code and no `error` key. -/
theorem is_success_diagnostics_witness :
    ([(str "code", PyVal.int 404)] : List (Str × PyVal)).lookup (str "code")
        = some (PyVal.int 404)
    ∧ (PyVal.int 404 ≠ PyVal.int 200)
    ∧ is_success [(str "code", PyVal.int 404)] = Except.error (str "error") :=
  ⟨by decide, by decide,
    (is_success_diagnostics [(str "code", PyVal.int 404)] (PyVal.int 404)
      (by decide) (by decide)).1 (by decide)⟩

/-- The URL built by `new_text_input`, with the query-string construction
carried out. -/
theorem new_text_input_url (u i t tok : Str) :
    (new_text_input u i t tok).url
      = str "https://aei.ai/api/v1/inputs/text?user_id=" ++ u
          ++ str "&interaction_id=" ++ i := by
  have hq : params_2_string (some [(str "user_id", u), (str "interaction_id", i)])
      = str "?user_id=" ++ u ++ str "&interaction_id=" ++ i := by
    simp only [params_2_string]
    rw [if_neg (by simp)]
    simp only [List.foldl_cons, List.foldl_nil]
    rw [show str "&" = ['&'] from rfl, List.dropLast_concat]
    simp [str, List.append_assoc]
  show API_URL ++ str "/inputs/text"
      ++ params_2_string (some [(str "user_id", u), (str "interaction_id", i)]) = _
  rw [hq]
  simp [API_URL, AEI_AI_URL, API_VERSION, str, List.append_assoc]

/-- C5 counterexample: submitting text input with `interaction_id = None`
does not produce a query string omitting the key — the string
concatenation inside `params_2_string` raises a `TypeError` and no
request is emitted at all. -/
theorem new_text_input_none_raises :
    new_text_input_dyn (str "u1") Option.none (str "hello") (str "tok")
      = Except.error () := rfl

/-- C5 (amended): for any actual string `interaction_id` — including the
empty string — the call succeeds and the query string always carries the
`interaction_id` key; passing `None` instead raises a `TypeError` during
query-string construction, so no request is emitted. -/
theorem new_text_input_dyn_spec (u i t tok : Str) :
    new_text_input_dyn u (some i) t tok = Except.ok (new_text_input u i t tok)
    ∧ (new_text_input u i t tok).url
        = str "https://aei.ai/api/v1/inputs/text?user_id=" ++ u
            ++ str "&interaction_id=" ++ i
    ∧ new_text_input_dyn u Option.none t tok = Except.error () :=
  ⟨rfl, new_text_input_url u i t tok, rfl⟩

/-- C7: `new_text_input` posts to the versioned `/inputs/text` path with
`user_id` and `interaction_id` as URL query parameters and the raw text
as body, while `new_interaction_list_input` posts to
`/inputs/interaction-list` with the raw JSON string as body and no query
parameters. -/
theorem input_encoding_asymmetry (u i t j tok : Str) :
    new_text_input u i t tok =
      { method := str "POST"
      , url := str "https://aei.ai/api/v1/inputs/text?user_id=" ++ u
          ++ str "&interaction_id=" ++ i
      , headers := auth_headers tok
      , body := Body.raw t }
    ∧ new_interaction_list_input j tok =
      { method := str "POST"
      , url := str "https://aei.ai/api/v1/inputs/interaction-list"
      , headers := auth_headers tok
      , body := Body.raw j } := by
  refine ⟨?_, rfl⟩
  have hurl := new_text_input_url u i t tok
  simp [new_text_input, Request.mk.injEq] at hurl ⊢
  simpa [new_text_input] using hurl

/-- C9: both interaction-membership operations encode the user-ID list as
repeated `user_id` form fields in the body — one `("user_id", id)` pair
per member, in list order — `create_new_interaction` as a `POST` to
`/interactions` and `add_users_to_interaction` as a `PUT` to
`/interactions/{id}/users`, with identical bodies. -/
theorem repeated_user_id_fields (ids : List Str) (iid tok : Str) :
    (create_new_interaction ids tok).method = str "POST"
    ∧ (create_new_interaction ids tok).url = str "https://aei.ai/api/v1/interactions"
    ∧ (add_users_to_interaction iid ids tok).method = str "PUT"
    ∧ (add_users_to_interaction iid ids tok).url
        = str "https://aei.ai/api/v1/interactions/" ++ iid ++ str "/users"
    ∧ (create_new_interaction ids tok).body
        = Body.form (ids.map (fun i => (str "user_id", i)))
    ∧ (add_users_to_interaction iid ids tok).body
        = Body.form (ids.map (fun i => (str "user_id", i)))
    ∧ (create_new_interaction ids tok).body = (add_users_to_interaction iid ids tok).body :=
  ⟨rfl, rfl, rfl, rfl, rfl, rfl, rfl⟩

/-- A `Basic` credential header value is never a `Bearer` header value. -/
theorem basic_ne_bearer (x y : Str) : str "Basic " ++ x ≠ str "Bearer " ++ y := by
  intro h
  have h' : 'B' :: 'a' :: 's' :: 'i' :: 'c' :: ' ' :: x
      = 'B' :: 'e' :: 'a' :: 'r' :: 'e' :: 'r' :: ' ' :: y := h
  simp at h'

/-- `versioned` holds of anything of the form `API_URL ++ rest`. -/
theorem versioned_of_append (rest u : Str) (h : API_URL ++ rest = u) : versioned u :=
  ⟨rest, h⟩

/-- C6: every reading or mutating operation of the catalog except
`register`, `login`, `reset_password` and `update_password` sends the
access token as an `Authorization: Bearer <access_token>` header; those
four carry the credentials directly (in headers or body) and send no
Bearer header. -/
theorem bearer_token_invariant (t uid iid sid stype pw em un tokr npw u p txt js : Str)
    (ids : List Str) (attrs ups : Option (List (Str × Str))) (ag : Bool) :
    ((create_new_user t attrs).headers.lookup (str "Authorization")
        = some (HVal.s (str "Bearer " ++ t)))
    ∧ ((create_new_interaction ids t).headers.lookup (str "Authorization")
        = some (HVal.s (str "Bearer " ++ t)))
    ∧ ((get_interaction iid t).headers.lookup (str "Authorization")
        = some (HVal.s (str "Bearer " ++ t)))
    ∧ ((get_interaction_list t).headers.lookup (str "Authorization")
        = some (HVal.s (str "Bearer " ++ t)))
    ∧ ((add_users_to_interaction iid ids t).headers.lookup (str "Authorization")
        = some (HVal.s (str "Bearer " ++ t)))
    ∧ ((new_text_input uid iid txt t).headers.lookup (str "Authorization")
        = some (HVal.s (str "Bearer " ++ t)))
    ∧ ((new_interaction_list_input js t).headers.lookup (str "Authorization")
        = some (HVal.s (str "Bearer " ++ t)))
    ∧ ((get_user uid t).headers.lookup (str "Authorization")
        = some (HVal.s (str "Bearer " ++ t)))
    ∧ ((get_user_emotion uid t).headers.lookup (str "Authorization")
        = some (HVal.s (str "Bearer " ++ t)))
    ∧ ((get_user_mood uid t).headers.lookup (str "Authorization")
        = some (HVal.s (str "Bearer " ++ t)))
    ∧ ((get_user_personality uid t).headers.lookup (str "Authorization")
        = some (HVal.s (str "Bearer " ++ t)))
    ∧ ((get_user_satisfaction uid t).headers.lookup (str "Authorization")
        = some (HVal.s (str "Bearer " ++ t)))
    ∧ ((get_user_social_perception uid t).headers.lookup (str "Authorization")
        = some (HVal.s (str "Bearer " ++ t)))
    ∧ ((get_user_list t).headers.lookup (str "Authorization")
        = some (HVal.s (str "Bearer " ++ t)))
    ∧ ((get_used_free_queries t).headers.lookup (str "Authorization")
        = some (HVal.s (str "Bearer " ++ t)))
    ∧ ((get_used_paid_queries t).headers.lookup (str "Authorization")
        = some (HVal.s (str "Bearer " ++ t)))
    ∧ ((get_payment_sources t).headers.lookup (str "Authorization")
        = some (HVal.s (str "Bearer " ++ t)))
    ∧ ((get_payment_source sid t).headers.lookup (str "Authorization")
        = some (HVal.s (str "Bearer " ++ t)))
    ∧ ((add_payment_source sid t).headers.lookup (str "Authorization")
        = some (HVal.s (str "Bearer " ++ t)))
    ∧ ((get_subscription t).headers.lookup (str "Authorization")
        = some (HVal.s (str "Bearer " ++ t)))
    ∧ ((update_subscription stype t).headers.lookup (str "Authorization")
        = some (HVal.s (str "Bearer " ++ t)))
    ∧ ((delete_source sid t).headers.lookup (str "Authorization")
        = some (HVal.s (str "Bearer " ++ t)))
    ∧ ((update_source sid ups t).headers.lookup (str "Authorization")
        = some (HVal.s (str "Bearer " ++ t)))
    ∧ ((change_password pw t).headers.lookup (str "Authorization")
        = some (HVal.s (str "Bearer " ++ t)))
    ∧ ((register un em pw ag).headers.lookup (str "Authorization") = Option.none)
    ∧ ((reset_password em).headers.lookup (str "Authorization") = Option.none)
    ∧ ((update_password un tokr npw).headers.lookup (str "Authorization") = Option.none)
    ∧ (∃ cred, (login u p).headers.lookup (str "Authorization")
          = some (HVal.s (str "Basic " ++ cred))
        ∧ ∀ r, str "Basic " ++ cred ≠ str "Bearer " ++ r)
    ∧ ((register un em pw ag).headers
        = [(str "username", HVal.s un), (str "email", HVal.s em),
           (str "password", HVal.s pw), (str "agreed", HVal.b ag)])
    ∧ ((reset_password em).body = Body.form [(str "email", em)])
    ∧ ((update_password un tokr npw).headers
        = [(str "username", HVal.s un), (str "token", HVal.s tokr),
           (str "password", HVal.s npw)]) :=
  ⟨rfl, rfl, rfl, rfl, rfl, rfl, rfl, rfl, rfl, rfl, rfl, rfl, rfl, rfl, rfl, rfl,
   rfl, rfl, rfl, rfl, rfl, rfl, rfl, rfl,
   rfl, rfl, rfl,
   ⟨b64encode (toBytes (u ++ ':' :: p)), rfl, fun r => basic_ne_bearer _ r⟩,
   rfl, rfl, rfl⟩

/-- C8: the four account/auth operations build their URLs from the bare
host with unversioned paths — never under `/api/v1` — while every
resource operation's URL starts with the versioned prefix
`https://aei.ai/api/v1`; in particular `register` sends the credentials
(username, email, password, agreed) as request headers and has no body. -/
theorem unversioned_auth_paths (t uid iid sid stype pw em un tokr npw u p txt js : Str)
    (ids : List Str) (attrs ups : Option (List (Str × Str))) (ag : Bool) :
    ((register un em pw ag).url = str "https://aei.ai/register")
    ∧ ((login u p).url = str "https://aei.ai/oauth/token")
    ∧ ((reset_password em).url = str "https://aei.ai/reset-password")
    ∧ ((update_password un tokr npw).url = str "https://aei.ai/update-password")
    ∧ ¬ versioned (register un em pw ag).url
    ∧ ¬ versioned (login u p).url
    ∧ ¬ versioned (reset_password em).url
    ∧ ¬ versioned (update_password un tokr npw).url
    ∧ versioned (create_new_user t attrs).url
    ∧ versioned (create_new_interaction ids t).url
    ∧ versioned (get_interaction iid t).url
    ∧ versioned (get_interaction_list t).url
    ∧ versioned (add_users_to_interaction iid ids t).url
    ∧ versioned (new_text_input uid iid txt t).url
    ∧ versioned (new_interaction_list_input js t).url
    ∧ versioned (get_user uid t).url
    ∧ versioned (get_user_emotion uid t).url
    ∧ versioned (get_user_mood uid t).url
    ∧ versioned (get_user_personality uid t).url
    ∧ versioned (get_user_satisfaction uid t).url
    ∧ versioned (get_user_social_perception uid t).url
    ∧ versioned (get_user_list t).url
    ∧ versioned (get_used_free_queries t).url
    ∧ versioned (get_used_paid_queries t).url
    ∧ versioned (get_payment_sources t).url
    ∧ versioned (get_payment_source sid t).url
    ∧ versioned (add_payment_source sid t).url
    ∧ versioned (get_subscription t).url
    ∧ versioned (update_subscription stype t).url
    ∧ versioned (delete_source sid t).url
    ∧ versioned (update_source sid ups t).url
    ∧ versioned (change_password pw t).url
    ∧ ((register un em pw ag).headers
        = [(str "username", HVal.s un), (str "email", HVal.s em),
           (str "password", HVal.s pw), (str "agreed", HVal.b ag)])
    ∧ ((register un em pw ag).body = Body.none) := by
  refine ⟨rfl, rfl, rfl, rfl, ?_, ?_, ?_, ?_,
    versioned_of_append (str "/users") _ rfl,
    versioned_of_append (str "/interactions") _ rfl,
    versioned_of_append (str "/interactions/" ++ iid) _ rfl,
    versioned_of_append (str "/interactions") _ rfl,
    versioned_of_append (str "/interactions/" ++ (iid ++ str "/users")) _ rfl,
    versioned_of_append (str "/inputs/text" ++ params_2_string
        (some [(str "user_id", uid), (str "interaction_id", iid)])) _ rfl,
    versioned_of_append (str "/inputs/interaction-list") _ rfl,
    versioned_of_append (str "/users/" ++ uid) _ rfl,
    versioned_of_append (str "/users/" ++ (uid ++ str "/emotion")) _ rfl,
    versioned_of_append (str "/users/" ++ (uid ++ str "/mood")) _ rfl,
    versioned_of_append (str "/users/" ++ (uid ++ str "/personality")) _ rfl,
    versioned_of_append (str "/users/" ++ (uid ++ str "/satisfaction")) _ rfl,
    versioned_of_append (str "/users/" ++ (uid ++ str "/social-perception")) _ rfl,
    versioned_of_append (str "/users/") _ rfl,
    versioned_of_append (str "/metrics/queries/used") _ rfl,
    versioned_of_append (str "/metrics/queries") _ rfl,
    versioned_of_append (str "/sources") _ rfl,
    versioned_of_append (str "/sources/" ++ sid) _ rfl,
    versioned_of_append (str "/sources/" ++ sid) _ rfl,
    versioned_of_append (str "/subscriptions") _ rfl,
    versioned_of_append (str "/subscriptions") _ rfl,
    versioned_of_append (str "/sources/" ++ sid) _ rfl,
    versioned_of_append (str "/sources/" ++ sid) _ rfl,
    versioned_of_append (str "/clients/password") _ rfl,
    rfl, rfl⟩
  all_goals rintro ⟨rest, h⟩
  all_goals simp [str, register, login, reset_password, update_password, AEI_AI_URL] at h

/-- Each base64 alphabet position decodes back to itself. -/
theorem b64index_b64char : ∀ i, i < 64 → b64index (b64char i) = some i := by decide

/-- No character of the base64 alphabet is the padding character `=`. -/
theorem b64char_ne_pad : ∀ i, i < 64 → b64char i ≠ '=' := by decide

/-- Base64 decoding is a left inverse of encoding on byte lists. -/
theorem b64_roundtrip (l : List Nat) (h : ∀ x ∈ l, x < 256) :
    b64decode (b64encode l) = some l := by
  match l with
  | [] => rfl
  | [a] =>
    have ha : a < 256 := h a (by simp)
    have h1 : a / 4 < 64 := by omega
    have h2 : a % 4 * 16 < 64 := by omega
    simp only [b64encode, b64decode, b64index_b64char _ h1, b64index_b64char _ h2]
    simp only [and_self, if_true]
    refine congrArg some ?_
    have e1 : a / 4 * 4 + a % 4 * 16 / 16 = a := by omega
    rw [e1]
  | [a, b] =>
    have ha : a < 256 := h a (by simp)
    have hb : b < 256 := h b (by simp)
    have h1 : a / 4 < 64 := by omega
    have h2 : a % 4 * 16 + b / 16 < 64 := by omega
    have h3 : b % 16 * 4 < 64 := by omega
    simp only [b64encode, b64decode, b64index_b64char _ h1, b64index_b64char _ h2,
      b64index_b64char _ h3, if_neg (b64char_ne_pad _ h3)]
    simp only [and_self, if_true]
    refine congrArg some ?_
    have e1 : a / 4 * 4 + (a % 4 * 16 + b / 16) / 16 = a := by omega
    have e2 : (a % 4 * 16 + b / 16) % 16 * 16 + b % 16 * 4 / 4 = b := by omega
    rw [e1, e2]
  | a :: b :: c :: rest =>
    have ha : a < 256 := h a (by simp)
    have hb : b < 256 := h b (by simp)
    have hc : c < 256 := h c (by simp)
    have ih := b64_roundtrip rest (fun x hx => h x (by simp [hx]))
    have h1 : a / 4 < 64 := by omega
    have h2 : a % 4 * 16 + b / 16 < 64 := by omega
    have h3 : b % 16 * 4 + c / 64 < 64 := by omega
    have h4 : c % 64 < 64 := by omega
    simp only [b64encode, b64decode, b64index_b64char _ h1, b64index_b64char _ h2,
      b64index_b64char _ h3, b64index_b64char _ h4,
      if_neg (b64char_ne_pad _ h3), if_neg (b64char_ne_pad _ h4), ih, Option.map_some]
    refine congrArg some ?_
    have e1 : a / 4 * 4 + (a % 4 * 16 + b / 16) / 16 = a := by omega
    have e2 : (a % 4 * 16 + b / 16) % 16 * 16 + (b % 16 * 4 + c / 64) / 4 = b := by omega
    have e3 : (b % 16 * 4 + c / 64) % 4 * 64 + c % 64 = c := by omega
    rw [e1, e2, e3]

/-- Splitting on the first colon recovers the two halves whenever the
first half contains no colon. -/
theorem split_colon_append (u p : Str) (hc : ':' ∉ u) :
    split_first_colon (u ++ ':' :: p) = (u, p) := by
  induction u with
  | nil => simp [split_first_colon]
  | cons ch rest ih =>
    have hch : ch ≠ ':' := fun hh => hc (by simp [hh])
    have hrest : ':' ∉ rest := fun hh => hc (by simp [hh])
    simp [split_first_colon, if_neg hch, ih hrest]

/-- Decoding the ASCII bytes of a string yields the string back. -/
theorem bytes_chars_id (s : Str) : bytes_to_chars (toBytes s) = s := by
  simp [bytes_to_chars, toBytes, List.map_map, Function.comp_def]

/-- C4: the `login` request's `Authorization` header is exactly
`"Basic "` followed by the base64 encoding of `username ++ ":" ++
password`, and the round trip holds: base64-decoding the credential part
and splitting on the first `:` recovers the original username and
password whenever the username contains no `:` (both inputs being
ASCII-encodable, as `login`'s `credentials.encode("ascii")` requires). -/
theorem login_basic_roundtrip (u p : Str)
    (hu : ∀ ch ∈ u, ch.toNat < 128) (hp : ∀ ch ∈ p, ch.toNat < 128) (hc : ':' ∉ u) :
    ((login u p).headers.lookup (str "Authorization")
        = some (HVal.s (str "Basic " ++ b64encode (toBytes (u ++ ':' :: p)))))
    ∧ ((b64decode (b64encode (toBytes (u ++ ':' :: p)))).map bytes_to_chars
        = some (u ++ ':' :: p))
    ∧ split_first_colon (u ++ ':' :: p) = (u, p) := by
  refine ⟨rfl, ?_, split_colon_append u p hc⟩
  have hbound : ∀ x ∈ toBytes (u ++ ':' :: p), x < 256 := by
    intro x hx
    simp only [toBytes, List.mem_map] at hx
    obtain ⟨ch, hch, rfl⟩ := hx
    rcases List.mem_append.mp hch with h1 | h2
    · have := hu ch h1; omega
    · rcases List.mem_cons.mp h2 with h2 | h2
      · subst h2; decide
      · have := hp ch h2; omega
  rw [b64_roundtrip _ hbound]
  simp [bytes_chars_id]

/-- Witness for C4 at the concrete credentials `alice` / `s3cret`. -/
theorem login_basic_roundtrip_witness :
    (∀ ch ∈ str "alice", ch.toNat < 128) ∧ (∀ ch ∈ str "s3cret", ch.toNat < 128)
    ∧ ':' ∉ str "alice"
    ∧ ((login (str "alice") (str "s3cret")).headers.lookup (str "Authorization")
        = some (HVal.s (str "Basic "
            ++ b64encode (toBytes (str "alice" ++ ':' :: str "s3cret")))))
    ∧ ((b64decode (b64encode (toBytes (str "alice" ++ ':' :: str "s3cret")))).map
          bytes_to_chars = some (str "alice" ++ ':' :: str "s3cret"))
    ∧ split_first_colon (str "alice" ++ ':' :: str "s3cret")
        = (str "alice", str "s3cret") :=
  ⟨by decide, by decide, by decide,
   (login_basic_roundtrip (str "alice") (str "s3cret")
      (by decide) (by decide) (by decide)).1,
   (login_basic_roundtrip (str "alice") (str "s3cret")
      (by decide) (by decide) (by decide)).2.1,
   (login_basic_roundtrip (str "alice") (str "s3cret")
      (by decide) (by decide) (by decide)).2.2⟩
